import Mathlib

/-!
Verification of the guarded SQL query subsystem and the bounded agent loop
of the chatbot repository (files `sql_tools.py` and `agent_chatbot.py`).

The Python code is shallowly embedded:
* strings are Lean `String`s and every Python string operation used by the
  code (`in`, `split`, `strip`, `rstrip`, `upper`, `join`, `re` word search)
  is translated into an executable Lean function on the character list;
* the wall clock (`time.time()`) is passed explicitly as an integer; the
  code compares timestamps only by subtraction and ordering, so nothing
  below depends on the density of the time domain;
* the external database driver is an oracle `String → DBOutcome`;
* the external SQL parser (`sqlparse`) is an oracle `String → ParseOutcome`;
  a small concrete model of its documented `get_type` behaviour is provided
  for evaluating concrete inputs;
* the text-generation model behind the agent loop is an oracle from the
  scratchpad text to the model's free-text response.
-/

/-! ### Generic string helpers (Python string operations) -/

/-- Word characters in the sense of the regex `\b` boundary (`[A-Za-z0-9_]`). -/
def isWordChar (c : Char) : Bool := c.isAlphanum || c = '_'

/-- Decides (as `containsSeq n h`) whether `n` occurs as a contiguous subsequence
of `h`; this is Python's substring test `n in h`. -/
def containsSeq (n : List Char) : List Char → Bool
  | [] => n.isEmpty
  | c :: t => n.isPrefixOf (c :: t) || containsSeq n t

/-- Python `sub in s` (substring containment). -/
def strContains (s sub : String) : Bool := containsSeq sub.data s.data

/-- Python `s.upper()` (character-wise upper casing). -/
def upperStr (s : String) : String := ⟨s.data.map Char.toUpper⟩

/-- Python `s.rstrip(';')`: remove every trailing `';'`. -/
def rstripSemicolons (s : String) : String :=
  ⟨(s.data.reverse.dropWhile (fun c => c = ';')).reverse⟩

/-- Python `s.strip()` on a character list. -/
def stripChars (s : List Char) : List Char :=
  ((s.dropWhile Char.isWhitespace).reverse.dropWhile Char.isWhitespace).reverse

/-- Python `s.strip()`. -/
def pyStrip (s : String) : String := ⟨stripChars s.data⟩

/-- Does the word `kw` match at the head of `s`, with regex word boundaries
on both sides?  `prev` is the character immediately before `s` (`none` at the
start of the text). -/
def wordAt (kw : List Char) (prev : Option Char) (s : List Char) : Bool :=
  kw.isPrefixOf s &&
    (match prev with
     | none => true
     | some c => !isWordChar c) &&
    (match List.drop kw.length s with
     | [] => true
     | c :: _ => !isWordChar c)

/-- Does `\b kw \b` match anywhere in the remaining text `s`
(`prev` = character before `s`)? -/
def wordSearch (kw : List Char) (prev : Option Char) : List Char → Bool
  | [] => wordAt kw prev []
  | c :: rest => wordAt kw prev (c :: rest) || wordSearch kw (some c) rest

/-- Python `re.search(r'\b' + re.escape(kw) + r'\b', s) is not None`. -/
def containsWord (kw : String) (s : String) : Bool :=
  wordSearch kw.data none s.data

/-- Number of word-boundary matches of `kw` in the remaining text. -/
def wordCount (kw : List Char) (prev : Option Char) : List Char → Nat
  | [] => 0
  | c :: rest =>
    (if wordAt kw prev (c :: rest) then 1 else 0) + wordCount kw (some c) rest

/-- Python `len(re.findall(r'\b' + kw + r'\b', s))` (the searched words have
no self-overlap, so counting all match positions agrees with `findall`). -/
def countWord (kw : String) (s : String) : Nat :=
  wordCount kw.data none s.data

/-- Characters before the first occurrence of `sep` (all of `s` when `sep`
does not occur): Python `s.split(sep)[0]`. -/
def beforeFirstList (sep : List Char) : List Char → List Char
  | [] => []
  | c :: rest =>
    if sep.isPrefixOf (c :: rest) then [] else c :: beforeFirstList sep rest

/-- Characters strictly after the first occurrence of `sep` (empty when `sep`
does not occur).  Only used under a containment guard, as in the source. -/
def afterFirstList (sep : List Char) : List Char → List Char
  | [] => []
  | c :: rest =>
    if sep.isPrefixOf (c :: rest) then List.drop (sep.length - 1) rest
    else afterFirstList sep rest

/-- Fuel-driven iteration of `afterFirstList`, realising Python
`s.split(sep)[-1]` (the tail after the last left-to-right, non-overlapping
occurrence of `sep`). -/
def afterLastAux (sep : List Char) : Nat → List Char → List Char
  | 0, s => s
  | fuel + 1, s =>
    if containsSeq sep s then afterLastAux sep fuel (afterFirstList sep s) else s

/-- Python `s.split(sep)[-1]`. -/
def afterLastList (sep s : List Char) : List Char := afterLastAux sep s.length s

/-- Python `s.split(sep)[0]`. -/
def pySplitGet0 (s sep : String) : String := ⟨beforeFirstList sep.data s.data⟩

/-- Python `s.split(sep)[1]`: the segment between the first occurrence of
`sep` and the next non-overlapping occurrence (or the end). -/
def pySplitGet1 (s sep : String) : String :=
  ⟨beforeFirstList sep.data (afterFirstList sep.data s.data)⟩

/-- Python `s.split(sep)[-1]`. -/
def pySplitLast (s sep : String) : String := ⟨afterLastList sep.data s.data⟩

/-- Python `sep.join(parts)`. -/
def joinWith (sep : String) : List String → String
  | [] => ""
  | [a] => a
  | a :: b :: rest => a ++ sep ++ joinWith sep (b :: rest)

/-- Keys of a Python dict built by successive insertion: first-occurrence
order, duplicates dropped. -/
def insertOrderKeysAux (seen : List String) : List String → List String
  | [] => []
  | k :: rest =>
    if seen.contains k then insertOrderKeysAux seen rest
    else k :: insertOrderKeysAux (k :: seen) rest

/-- Python `list(dict(pairs).keys())` ordering for the key list `l`. -/
def insertOrderKeys (l : List String) : List String := insertOrderKeysAux [] l

/-- Python `dict(pairs).get(h, '')`: the value of the last pair whose key is
`h` (later insertions override), or `""`. -/
def dictGet (row : List (String × String)) (h : String) : String :=
  ((row.reverse.find? (fun p => p.1 = h)).map (fun p => p.2)).getD ""

/-! ### `sql_tools.py`: RateLimiter -/

/-- State of `RateLimiter` (`sql_tools.py`).  `requests` models the
`defaultdict(list)` of per-identity timestamp lists; the wall clock is an
integer supplied at each call. -/
structure RateLimiter where
  max_requests : Nat
  time_window : ℤ
  requests : String → List ℤ

/-- Python `RateLimiter(max_requests, time_window)` with the empty request map. -/
def RateLimiter.make (n : Nat) (w : ℤ) : RateLimiter :=
  ⟨n, w, fun _ => []⟩

/-- Python `RateLimiter.allow_request(user_id)` at clock value `now`: evict the
timestamps older than the window, deny when the remaining count has reached
`max_requests`, otherwise record `now` and admit. -/
def allow_request (rl : RateLimiter) (user_id : String) (now : ℤ) :
    Bool × RateLimiter :=
  let cleaned := (rl.requests user_id).filter (fun t => now - t < rl.time_window)
  if rl.max_requests ≤ cleaned.length then
    (false, { rl with requests := fun u => if u = user_id then cleaned else rl.requests u })
  else
    (true, { rl with requests := fun u => if u = user_id then cleaned ++ [now] else rl.requests u })

/-! ### `sql_tools.py`: SQLQueryValidator -/

/-- Python `SQLQueryValidator.BLOCKED_KEYWORDS`. -/
def BLOCKED_KEYWORDS : List String :=
  ["DROP", "DELETE", "UPDATE", "INSERT", "ALTER", "CREATE",
   "TRUNCATE", "GRANT", "REVOKE", "EXEC", "EXECUTE",
   "INTO OUTFILE", "LOAD_FILE", "LOAD DATA", "BACKUP"]

/-- Python `SQLQueryValidator.MAX_QUERY_LENGTH`. -/
def MAX_QUERY_LENGTH : Nat := 2000

/-- Python `SQLQueryValidator.MAX_TABLES`. -/
def MAX_TABLES : Nat := 5

/-- Outcome of handing the text to the external `sqlparse` library:
`sqlparse.parse` returned no statements, or the first statement's
`get_type()` value, or an exception escaped the parsing block. -/
inductive ParseOutcome where
  | noStatements
  | parsedType (t : String)
  | parseError (msg : String)
deriving DecidableEq, Repr

/-- Result of `SQLQueryValidator.validate`: the dict
`{'valid': bool, 'error': str}` (no `error` key when valid). -/
structure Verdict where
  valid : Bool
  error : Option String
deriving DecidableEq, Repr

/-- Python `SQLQueryValidator` instance state: its rate limiter
(constructed as `RateLimiter(max_requests=10, time_window=60)`). -/
structure SQLQueryValidator where
  rate_limiter : RateLimiter

/-- A freshly constructed `SQLQueryValidator()`. -/
def SQLQueryValidator.new : SQLQueryValidator :=
  ⟨RateLimiter.make 10 60⟩

/-- Python `SQLQueryValidator._count_tables`: occurrences of `FROM` plus `JOIN`
(as whole words) in the upper-cased query. -/
def count_tables (query : String) : Nat :=
  countWord "FROM" (upperStr query) + countWord "JOIN" (upperStr query)

/-- Steps 2-9 of `SQLQueryValidator.validate` (everything after the
rate-limit gate; these steps do not touch the limiter state).
`parse` is the `sqlparse` oracle. -/
def validateAfterRate (parse : String → ParseOutcome) (query : String) : Verdict :=
  -- 2. Length validation
  if query.length > MAX_QUERY_LENGTH then
    ⟨false, some ("Query too long. Maximum length is " ++ toString MAX_QUERY_LENGTH ++ " characters.")⟩
  -- 3. Check for empty query
  else if query.data.all Char.isWhitespace then
    ⟨false, some "Query cannot be empty."⟩
  else
    -- 4./5. Parse and check the statement type
    match parse query with
    | ParseOutcome.noStatements => ⟨false, some "Invalid SQL syntax."⟩
    | ParseOutcome.parseError m => ⟨false, some ("SQL parsing error: " ++ m)⟩
    | ParseOutcome.parsedType t =>
      if t ≠ "SELECT" then
        ⟨false, some ("Only SELECT queries are allowed. Found: " ++ t)⟩
      else
        -- 6. Check for blocked keywords (first match in list order wins)
        match BLOCKED_KEYWORDS.find? (fun kw => containsWord kw (upperStr query)) with
        | some kw => ⟨false, some ("Blocked keyword detected: " ++ kw)⟩
        | none =>
          -- 7. Check for SQL comments
          if strContains query "--" || strContains query "/*" || strContains query "*/" then
            ⟨false, some "SQL comments are not allowed."⟩
          -- 8. Check for multiple statements
          else if strContains (rstripSemicolons query) ";" then
            ⟨false, some "Multiple SQL statements are not allowed."⟩
          -- 9. Validate table count
          else if count_tables query > MAX_TABLES then
            ⟨false, some ("Too many tables in query. Maximum is " ++ toString MAX_TABLES ++ ".")⟩
          else ⟨true, none⟩

/-- Python `SQLQueryValidator.validate(query, user_id)` at clock value `now`.
Step 1 consults (and mutates) the rate limiter when `user_id` is truthy;
a denial short-circuits with the rate-limit error. -/
def validate (parse : String → ParseOutcome) (v : SQLQueryValidator)
    (query : String) (user_id : Option String) (now : ℤ) :
    Verdict × SQLQueryValidator :=
  match user_id with
  | none => (validateAfterRate parse query, v)
  | some u =>
    if u = "" then (validateAfterRate parse query, v)
    else
      let r := allow_request v.rate_limiter u now
      if r.1 then (validateAfterRate parse query, ⟨r.2⟩)
      else (⟨false, some "Rate limit exceeded. Please wait before making more queries."⟩, ⟨r.2⟩)

/-! ### `sql_tools.py`: SecureSQLExecutor -/

/-- Outcome of handing a statement to the database driver: a result set
(column names and rows of rendered values), a `SQLAlchemyError`, or any
other exception. -/
inductive DBOutcome where
  | ok (cols : List String) (rows : List (List String))
  | sqlAlchemyError (msg : String)
  | otherError (msg : String)
deriving DecidableEq, Repr

/-- The dict returned by `SecureSQLExecutor.execute_query`:
`{'success': bool, 'data': rows, 'row_count': n, 'error': str}` with only
the keys the branch sets. -/
structure ExecResult where
  success : Bool
  data : Option (List (List (String × String)))
  row_count : Option Nat
  error : Option String
deriving DecidableEq, Repr

/-- The rewrite in `execute_query`: append `LIMIT max_rows` when the
upper-cased text has no `LIMIT` substring, else leave the text unchanged. -/
def limitedQuery (query : String) (max_rows : Nat) : String :=
  if strContains (upperStr query) "LIMIT" then query
  else rstripSemicolons query ++ " LIMIT " ++ toString max_rows

/-- Python `SecureSQLExecutor.execute_query(query, user_id, max_rows)` at clock
value `now`, with database oracle `db` and `sqlparse` oracle `parse`.
Returns the result dict, the executor state (its validator's rate limiter),
and the list of statements actually handed to the database. -/
def execute_query (parse : String → ParseOutcome) (db : String → DBOutcome)
    (ex : SQLQueryValidator) (query : String) (user_id : Option String)
    (max_rows : Nat) (now : ℤ) :
    ExecResult × SQLQueryValidator × List String :=
  let vr := validate parse ex query user_id now
  if vr.1.valid then
    let q := limitedQuery query max_rows
    match db q with
    | DBOutcome.ok cols rows =>
      let data := rows.map (fun r => cols.zip r)
      ({ success := true, data := some data, row_count := some data.length, error := none }, vr.2, [q])
    | DBOutcome.sqlAlchemyError m =>
      ({ success := false, data := none, row_count := none, error := some ("Database error: " ++ m) }, vr.2, [q])
    | DBOutcome.otherError m =>
      ({ success := false, data := none, row_count := none, error := some ("Unexpected error: " ++ m) }, vr.2, [q])
  else
    ({ success := false, data := none, row_count := none, error := vr.1.error }, vr.2, [])

/-- Python `run_query` (closure inside `create_sql_query_tool`): executes the text
with the fixed identity `"default_user"` and the default `max_rows=100`,
then formats the result for the agent. -/
def run_query (parse : String → ParseOutcome) (db : String → DBOutcome)
    (ex : SQLQueryValidator) (query : String) (now : ℤ) :
    String × SQLQueryValidator :=
  let out := execute_query parse db ex query (some "default_user") 100 now
  let result := out.1
  if result.success then
    let data := (result.data).getD []
    let row_count := (result.row_count).getD 0
    if data.isEmpty then
      ("✓ Query executed successfully but returned no results.", out.2.1)
    else
      let headers := insertOrderKeys ((data.headD []).map (fun p => p.1))
      let o1 := "✓ Query returned " ++ toString row_count ++ " row(s):\n\n"
      let o2 := o1 ++ joinWith " | " headers ++ "\n"
      let o3 := o2 ++ String.mk (List.replicate (o2.length - 2) '-') ++ "\n"
      let o4 := o3 ++ joinWith "" ((data.take 10).map
        (fun row => joinWith " | " (headers.map (fun h => dictGet row h)) ++ "\n"))
      let o5 :=
        if row_count > 10 then
          o4 ++ "\n... and " ++ toString (row_count - 10) ++ " more rows"
        else o4
      (o5, out.2.1)
  else
    ("❌ Query failed: " ++ (result.error).getD "", out.2.1)

/-- Thread a sequence of `run_query` calls (all at clock value `now`)
through the executor state. -/
def runQuerySeq (parse : String → ParseOutcome) (db : String → DBOutcome)
    (ex : SQLQueryValidator) (qs : List String) (now : ℤ) : SQLQueryValidator :=
  match qs with
  | [] => ex
  | q :: rest => runQuerySeq parse db (run_query parse db ex q now).2 rest now

/-- Model of the external `sqlparse` library's `Statement.get_type()`:
the value is the first token when that token is one of the DML/DDL
statement keywords `sqlparse` classifies, and `UNKNOWN` otherwise;
whitespace-only text parses to no statements.  Used only to evaluate
concrete inputs; all universally quantified theorems are parametric in the
parse oracle. -/
def sqlparseModel (query : String) : ParseOutcome :=
  let rest := query.data.dropWhile Char.isWhitespace
  if rest.isEmpty then ParseOutcome.noStatements
  else
    let w : String := ⟨(rest.takeWhile Char.isAlpha).map Char.toUpper⟩
    if w ∈ ["SELECT", "INSERT", "UPDATE", "DELETE", "UPSERT", "REPLACE",
            "MERGE", "CREATE", "DROP", "ALTER"] then
      ParseOutcome.parsedType w
    else ParseOutcome.parsedType "UNKNOWN"

/-! ### `agent_chatbot.py`: execute_agent -/

/-- A LangChain tool as `execute_agent` consumes it: a name, a description,
and the callable `func`. -/
structure AgentTool where
  name : String
  description : String
  func : String → String

/-- Python `tool_map[action]` for `tool_map = {tool.name: tool for tool in tools}`:
membership plus lookup; with duplicate names the last tool wins, as in a
Python dict comprehension. -/
def toolLookup (tools : List AgentTool) (n : String) : Option AgentTool :=
  tools.reverse.find? (fun t => t.name = n)

/-- Python `tool_map.keys()` in dict order. -/
def toolNames (tools : List AgentTool) : List String :=
  insertOrderKeys (tools.map (fun t => t.name))

/-- Python `response.split("Action:")[1].split("Action Input:")[0].strip()`. -/
def actionPart (response : String) : String :=
  pyStrip (pySplitGet0 (pySplitGet1 response "Action:") "Action Input:")

/-- Python `response.split("Action Input:")[1].split("\n")[0].strip()`. -/
def actionInputPart (response : String) : String :=
  pyStrip (pySplitGet0 (pySplitGet1 response "Action Input:") "\n")

/-- Python `response.split("Final Answer:")[-1].strip()`. -/
def finalAnswerPart (response : String) : String :=
  pyStrip (pySplitLast response "Final Answer:")

/-- Python `response.split("Thought:")[-1].strip()`. -/
def fallbackAnswer (response : String) : String :=
  pyStrip (pySplitLast response "Thought:")

/-- The observation text recorded when the named tool is not in the map. -/
def unknownToolObservation (tools : List AgentTool) (a : String) : String :=
  "Error - Tool '" ++ a ++ "' not found. Available tools: " ++
    joinWith ", " (toolNames tools)

/-- Outcome of one iteration body of `execute_agent`: either the loop
returns an answer, or it continues with an extended scratchpad. -/
inductive StepOut where
  | finished (answer : String)
  | continued (pad : String)
deriving DecidableEq, Repr

/-- One iteration body of the `for` loop in `execute_agent`, applied to the
model's `response` with current scratchpad `pad`. -/
def agentStep (tools : List AgentTool) (pad response : String) : StepOut :=
  if strContains response "Final Answer:" then
    StepOut.finished (finalAnswerPart response)
  else if strContains response "Action:" && strContains response "Action Input:" then
    match toolLookup tools (actionPart response) with
    | some tl =>
      StepOut.continued
        (pad ++ "\n" ++ response ++ "\nObservation: " ++
          tl.func (actionInputPart response) ++ "\nThought: ")
    | none =>
      StepOut.continued
        (pad ++ "\n" ++ response ++ "\nObservation: " ++
          unknownToolObservation tools (actionPart response) ++ "\nThought: ")
  else
    StepOut.finished (fallbackAnswer response)

/-- The message returned when the iteration budget is exhausted. -/
def MAX_ITER_MESSAGE : String :=
  "I've reached my thinking limit. Could you rephrase your question or break it into smaller parts?"

/-- The `for iteration in range(max_iterations)` loop of `execute_agent`,
resumed at scratchpad `pad` with `fuel` iterations left.  `invoke` is the model
oracle (the response as a function of the scratchpad; question, history and
tool catalogue are fixed for the episode).  Returns the answer together
with the number of model invocations made. -/
def executeAgentFrom (invoke : String → String) (tools : List AgentTool) :
    Nat → String → String × Nat
  | 0, _ => (MAX_ITER_MESSAGE, 0)
  | Nat.succ n, pad =>
    let response := invoke pad
    match agentStep tools pad response with
    | StepOut.finished a => (a, 1)
    | StepOut.continued pad' =>
      let r := executeAgentFrom invoke tools n pad'
      (r.1, r.2 + 1)

/-- Python `execute_agent(agent, tools, input_text, chat_history, max_iterations)`:
run the loop from the empty scratchpad. -/
def execute_agent (invoke : String → String) (tools : List AgentTool)
    (max_iterations : Nat) : String × Nat :=
  executeAgentFrom invoke tools max_iterations ""

/-! ### Derived observations used by the theorems -/

/-- Number of rows in a database outcome. -/
def dbRows (o : DBOutcome) : Nat :=
  match o with
  | DBOutcome.ok _ rows => rows.length
  | _ => 0

/-- Number of rows carried by an execution result. -/
def resultRows (r : ExecResult) : Nat := ((r.data).getD []).length

/-! ### C5: rejected text is never executed; driver failures become results -/

/-- C5: for every query text rejected by the validator, `execute_query`
returns a failure result carrying the validator's rejection reason verbatim
and hands nothing to the database; and every driver-level failure
(`SQLAlchemyError` or any other exception) of an admitted query is returned
as a failure result rather than raised. -/
theorem C5_rejection_and_driver_failures
    (parse : String → ParseOutcome) (db : String → DBOutcome)
    (ex : SQLQueryValidator) (query : String) (user_id : Option String)
    (max_rows : Nat) (now : ℤ) :
    ((validate parse ex query user_id now).1.valid = false →
      (execute_query parse db ex query user_id max_rows now).1.success = false ∧
      (execute_query parse db ex query user_id max_rows now).1.error =
        (validate parse ex query user_id now).1.error ∧
      (execute_query parse db ex query user_id max_rows now).2.2 = []) ∧
    (∀ m, (validate parse ex query user_id now).1.valid = true →
      db (limitedQuery query max_rows) = DBOutcome.sqlAlchemyError m →
      (execute_query parse db ex query user_id max_rows now).1.success = false ∧
      (execute_query parse db ex query user_id max_rows now).1.error =
        some ("Database error: " ++ m)) ∧
    (∀ m, (validate parse ex query user_id now).1.valid = true →
      db (limitedQuery query max_rows) = DBOutcome.otherError m →
      (execute_query parse db ex query user_id max_rows now).1.success = false ∧
      (execute_query parse db ex query user_id max_rows now).1.error =
        some ("Unexpected error: " ++ m)) := by
  refine ⟨fun hv => ?_, fun m hv hdb => ?_, fun m hv hdb => ?_⟩ <;>
    simp only [execute_query, hv, if_false, if_true, Bool.false_eq_true] <;>
    try simp [hdb]
  simp

/-- Witness for C5 at a concrete rejected input. -/
theorem C5_witness :
    (execute_query sqlparseModel (fun _ => DBOutcome.ok [] []) SQLQueryValidator.new
        "DROP TABLE users" (some "u1") 100 0).1.success = false ∧
    (execute_query sqlparseModel (fun _ => DBOutcome.ok [] []) SQLQueryValidator.new
        "DROP TABLE users" (some "u1") 100 0).1.error =
      (validate sqlparseModel SQLQueryValidator.new "DROP TABLE users" (some "u1") 0).1.error ∧
    (execute_query sqlparseModel (fun _ => DBOutcome.ok [] []) SQLQueryValidator.new
        "DROP TABLE users" (some "u1") 100 0).2.2 = [] :=
  (C5_rejection_and_driver_failures sqlparseModel (fun _ => DBOutcome.ok [] [])
    SQLQueryValidator.new "DROP TABLE users" (some "u1") 100 0).1 (by decide)

/-! ### C7: database failures are reported, but the raw driver text leaks -/

/-- Database oracle that fails with a raw driver message. -/
def c7db : String → DBOutcome := fun _ => DBOutcome.sqlAlchemyError "division by zero"

/-- C7: at the admissible query `SELECT 1/0 AS x` whose execution fails at
the database level, `execute_query` does report a failure result (no crash),
but the returned error message contains the raw driver exception text
verbatim (prefixed with `Database error: `), contradicting the claim that
raw driver text is not disclosed. -/
theorem C7_driver_text_leaks :
    (validate sqlparseModel SQLQueryValidator.new "SELECT 1/0 AS x" none 0).1.valid = true ∧
    (execute_query sqlparseModel c7db SQLQueryValidator.new "SELECT 1/0 AS x" none 100 0).1.success = false ∧
    (execute_query sqlparseModel c7db SQLQueryValidator.new "SELECT 1/0 AS x" none 100 0).1.error =
      some "Database error: division by zero" ∧
    strContains "Database error: division by zero" "division by zero" = true := by
  decide

/-! ### C1: the row cap applies only when the text has no LIMIT clause -/

/-- C1 (amended): when the admitted text has no `LIMIT` substring (so the
`LIMIT max_rows` clause is appended) and the database honours a trailing
`LIMIT n` clause, `execute_query` returns at most `max_rows` rows. -/
theorem C1_row_cap_when_no_limit_clause
    (parse : String → ParseOutcome) (db : String → DBOutcome)
    (ex : SQLQueryValidator) (query : String) (user_id : Option String)
    (max_rows : Nat) (now : ℤ)
    (hNoLimit : strContains (upperStr query) "LIMIT" = false)
    (hdb : ∀ q n, dbRows (db (q ++ " LIMIT " ++ toString n)) ≤ n) :
    resultRows (execute_query parse db ex query user_id max_rows now).1 ≤ max_rows := by
  unfold execute_query
  cases hv : (validate parse ex query user_id now).1.valid with
  | false => simp [hv, resultRows]
  | true =>
    have hq : limitedQuery query max_rows =
        rstripSemicolons query ++ " LIMIT " ++ toString max_rows := by
      unfold limitedQuery
      rw [hNoLimit]
      simp
    simp only [hv, if_true]
    have := hdb (rstripSemicolons query) max_rows
    rw [← hq] at this
    cases hdbq : db (limitedQuery query max_rows) with
    | ok cols rows =>
      rw [hdbq] at this
      simp only [hdbq, resultRows, dbRows] at *
      simpa using this
    | sqlAlchemyError m => simp [hdbq, resultRows]
    | otherError m => simp [hdbq, resultRows]

/-- Witness for C1 at a concrete input (a database that returns no rows,
hence trivially honours every limit clause). -/
theorem C1_witness :
    resultRows (execute_query sqlparseModel (fun _ => DBOutcome.ok ["x"] [])
      SQLQueryValidator.new "SELECT * FROM users" none 100 0).1 ≤ 100 :=
  C1_row_cap_when_no_limit_clause sqlparseModel (fun _ => DBOutcome.ok ["x"] [])
    SQLQueryValidator.new "SELECT * FROM users" none 100 0 (by decide)
    (fun _ n => Nat.zero_le n)

/-- Database oracle for the C1 counterexample: the admitted query carries
its own looser `LIMIT 1000` clause and the database returns 200 rows for it
(consistent with honouring the written clause, since 200 ≤ 1000). -/
def c1db : String → DBOutcome := fun q =>
  if q = "SELECT * FROM users LIMIT 1000" then
    DBOutcome.ok ["id"] (List.replicate 200 ["1"])
  else DBOutcome.ok [] []

/-- C1 counterexample: the text `SELECT * FROM users LIMIT 1000` is admitted
by the validator, is handed to the database unchanged (no rewrite, because
it already contains `LIMIT`), and `execute_query` with `max_rows = 100`
returns 200 rows — more than the row cap.  The policy cap does not dominate
a looser explicit clause. -/
theorem C1_counterexample :
    (validate sqlparseModel SQLQueryValidator.new
        "SELECT * FROM users LIMIT 1000" none 0).1.valid = true ∧
    (execute_query sqlparseModel c1db SQLQueryValidator.new
        "SELECT * FROM users LIMIT 1000" none 100 0).2.2 =
      ["SELECT * FROM users LIMIT 1000"] ∧
    (execute_query sqlparseModel c1db SQLQueryValidator.new
        "SELECT * FROM users LIMIT 1000" none 100 0).1.row_count = some 200 ∧
    resultRows (execute_query sqlparseModel c1db SQLQueryValidator.new
        "SELECT * FROM users LIMIT 1000" none 100 0).1 = 200 ∧
    100 < 200 := by
  set_option maxRecDepth 4000 in decide

/-! ### C2: blocked keywords and the rejection reason -/

/-- Iterate `validate` on the same inputs, threading the state. -/
def validateNTimes (parse : String → ParseOutcome) (v : SQLQueryValidator)
    (query : String) (user_id : Option String) (now : ℤ) : Nat → SQLQueryValidator
  | 0 => v
  | n + 1 => (validate parse (validateNTimes parse v query user_id now n) query user_id now).2

/-- Validator state after ten admitted validations for identity `bob`. -/
def c2state : SQLQueryValidator :=
  validateNTimes sqlparseModel SQLQueryValidator.new "SELECT 1" (some "bob") 0 10

/-- C2 counterexample: `DROP TABLE users` contains the blocked keyword
`DROP` as a whole word, and `validate` does reject it for the identity
`bob` whose window is full after ten validations — but with the rate-limit
reason, which does not name the keyword.  The claim's universally
quantified "reason names that keyword" fails. -/
theorem C2_counterexample :
    "DROP" ∈ BLOCKED_KEYWORDS ∧
    containsWord "DROP" (upperStr "DROP TABLE users") = true ∧
    (validate sqlparseModel c2state "DROP TABLE users" (some "bob") 0).1 =
      ⟨false, some "Rate limit exceeded. Please wait before making more queries."⟩ ∧
    strContains "Rate limit exceeded. Please wait before making more queries." "DROP" = false := by
  decide

/-- C2 (amended): if the text additionally is within the length limit, is
not all whitespace, the identity is not rate limited (absent, falsy, or
admitted), and the parser classifies the statement as `SELECT`, then a text
containing a blocked keyword as a whole word (any case — the scan upper
cases the text) is rejected with a reason naming a blocked keyword that
occurs in the text as a whole word (the first such keyword in list order). -/
theorem C2_blocked_keyword_reason
    (parse : String → ParseOutcome) (v : SQLQueryValidator) (query : String)
    (user_id : Option String) (now : ℤ) (kw : String)
    (hkw : kw ∈ BLOCKED_KEYWORDS)
    (hocc : containsWord kw (upperStr query) = true)
    (hgate : match user_id with
             | none => True
             | some u => u = "" ∨ (allow_request v.rate_limiter u now).1 = true)
    (hlen : query.length ≤ MAX_QUERY_LENGTH)
    (hws : query.data.all Char.isWhitespace = false)
    (hparse : parse query = ParseOutcome.parsedType "SELECT") :
    (validate parse v query user_id now).1.valid = false ∧
    ∃ kw', kw' ∈ BLOCKED_KEYWORDS ∧ containsWord kw' (upperStr query) = true ∧
      (validate parse v query user_id now).1.error =
        some ("Blocked keyword detected: " ++ kw') := by
  have hfind : ∃ kw', BLOCKED_KEYWORDS.find?
      (fun k => containsWord k (upperStr query)) = some kw' := by
    cases hf : BLOCKED_KEYWORDS.find? (fun k => containsWord k (upperStr query)) with
    | none =>
      exact absurd hocc (by simpa using List.find?_eq_none.mp hf kw hkw)
    | some kw' => exact ⟨kw', rfl⟩
  obtain ⟨kw', hf⟩ := hfind
  have hmem : kw' ∈ BLOCKED_KEYWORDS := List.mem_of_find?_eq_some hf
  have hpred : containsWord kw' (upperStr query) = true := by
    have := List.find?_some hf
    simpa using this
  have hafter : validateAfterRate parse query =
      ⟨false, some ("Blocked keyword detected: " ++ kw')⟩ := by
    unfold validateAfterRate
    rw [if_neg (by omega), if_neg (by simp [hws]), hparse]
    simp [hf]
  have hv1 : (validate parse v query user_id now).1 =
      ⟨false, some ("Blocked keyword detected: " ++ kw')⟩ := by
    unfold validate
    cases user_id with
    | none => simpa using hafter
    | some u =>
      rcases hgate with hu | hall
      · simpa [hu] using hafter
      · by_cases hu : u = ""
        · simpa [hu] using hafter
        · simpa [hu, hall] using hafter
  exact ⟨by rw [hv1], kw', hmem, hpred, by rw [hv1]⟩

/-- Witness for C2 (amended) at a concrete input. -/
theorem C2_witness :
    (validate sqlparseModel SQLQueryValidator.new "SELECT 'DROP'" none 0).1.valid = false ∧
    ∃ kw', kw' ∈ BLOCKED_KEYWORDS ∧
      containsWord kw' (upperStr "SELECT 'DROP'") = true ∧
      (validate sqlparseModel SQLQueryValidator.new "SELECT 'DROP'" none 0).1.error =
        some ("Blocked keyword detected: " ++ kw') :=
  C2_blocked_keyword_reason sqlparseModel SQLQueryValidator.new "SELECT 'DROP'"
    none 0 "DROP" (by decide) (by decide) trivial (by decide) (by decide) (by decide)

/-! ### C3: admissible SELECT statements -/

/-- C3 counterexample: `SELECT * FROM t WHERE name = 'DROP'` is a
syntactically valid read-only statement within every limit, has no comment
markers and is a single statement, yet `validate` rejects it, because the
blocked-keyword scan also fires inside string literals. -/
theorem C3_counterexample :
    sqlparseModel "SELECT * FROM t WHERE name = 'DROP'" = ParseOutcome.parsedType "SELECT" ∧
    ("SELECT * FROM t WHERE name = 'DROP'").length ≤ MAX_QUERY_LENGTH ∧
    count_tables "SELECT * FROM t WHERE name = 'DROP'" ≤ MAX_TABLES ∧
    strContains "SELECT * FROM t WHERE name = 'DROP'" "--" = false ∧
    strContains "SELECT * FROM t WHERE name = 'DROP'" "/*" = false ∧
    strContains "SELECT * FROM t WHERE name = 'DROP'" "*/" = false ∧
    strContains (rstripSemicolons "SELECT * FROM t WHERE name = 'DROP'") ";" = false ∧
    (validate sqlparseModel SQLQueryValidator.new
        "SELECT * FROM t WHERE name = 'DROP'" none 0).1 =
      ⟨false, some "Blocked keyword detected: DROP"⟩ := by
  decide

/-- C3 (amended): a statement the parser classifies as `SELECT`, within the
length limit, not all whitespace, containing no blocked keyword as a whole
word, with no comment markers, a single statement, and within the table
limit, is accepted by `validate` — with no rate limiting applied
(`user_id = None`), the validator state is untouched. -/
theorem C3_valid_select_accepted
    (parse : String → ParseOutcome) (v : SQLQueryValidator) (query : String) (now : ℤ)
    (hparse : parse query = ParseOutcome.parsedType "SELECT")
    (hlen : query.length ≤ MAX_QUERY_LENGTH)
    (hws : query.data.all Char.isWhitespace = false)
    (hkw : ∀ kw ∈ BLOCKED_KEYWORDS, containsWord kw (upperStr query) = false)
    (hc1 : strContains query "--" = false)
    (hc2 : strContains query "/*" = false)
    (hc3 : strContains query "*/" = false)
    (hsemi : strContains (rstripSemicolons query) ";" = false)
    (htab : count_tables query ≤ MAX_TABLES) :
    validate parse v query none now = (⟨true, none⟩, v) := by
  have hfind : BLOCKED_KEYWORDS.find? (fun k => containsWord k (upperStr query)) = none :=
    List.find?_eq_none.mpr (fun kw hm => by simp [hkw kw hm])
  have htab' : ¬ count_tables query > MAX_TABLES := by omega
  unfold validate validateAfterRate
  rw [if_neg (by omega), if_neg (by simp [hws]), hparse]
  simp [hfind, hc1, hc2, hc3, hsemi, htab']

/-- Witness for C3 (amended) at a concrete input. -/
theorem C3_witness :
    validate sqlparseModel SQLQueryValidator.new
        "SELECT * FROM users WHERE id = 1" none 0 =
      (⟨true, none⟩, SQLQueryValidator.new) :=
  C3_valid_select_accepted sqlparseModel SQLQueryValidator.new
    "SELECT * FROM users WHERE id = 1" 0 (by decide) (by decide) (by decide)
    (by decide) (by decide) (by decide) (by decide) (by decide) (by decide)

/-! ### Substring helper lemmas -/

lemma isPrefixOf_append_ext (n h post : List Char) (hp : n.isPrefixOf h = true) :
    n.isPrefixOf (h ++ post) = true := by
  induction n generalizing h with
  | nil => simp [List.isPrefixOf]
  | cons a as ih =>
    cases h with
    | nil => simp [List.isPrefixOf] at hp
    | cons b bs =>
      simp only [List.isPrefixOf, Bool.and_eq_true] at hp ⊢
      exact ⟨hp.1, ih bs hp.2⟩

lemma containsSeq_append_left (n pre h : List Char) (hc : containsSeq n h = true) :
    containsSeq n (pre ++ h) = true := by
  induction pre with
  | nil => simpa using hc
  | cons c t ih =>
    show (n.isPrefixOf (c :: (t ++ h)) || containsSeq n (t ++ h)) = true
    rw [ih]
    simp

lemma containsSeq_append_right (n h post : List Char) (hc : containsSeq n h = true) :
    containsSeq n (h ++ post) = true := by
  induction h with
  | nil =>
    simp only [containsSeq] at hc
    have hn : n = [] := by simpa using hc
    subst hn
    cases post with
    | nil => simp [containsSeq]
    | cons c t => simp [containsSeq, List.isPrefixOf]
  | cons c t ih =>
    simp only [containsSeq, Bool.or_eq_true] at hc
    rcases hc with hp | hrest
    · show (n.isPrefixOf (c :: (t ++ post)) || containsSeq n (t ++ post)) = true
      rw [show c :: (t ++ post) = (c :: t) ++ post from rfl,
        isPrefixOf_append_ext n (c :: t) post hp]
      simp
    · show (n.isPrefixOf (c :: (t ++ post)) || containsSeq n (t ++ post)) = true
      rw [ih hrest]
      simp

lemma isPrefixOf_self_list (l : List Char) : l.isPrefixOf l = true := by
  induction l with
  | nil => rfl
  | cons a t ih => simp [List.isPrefixOf, ih]

lemma containsSeq_self (l : List Char) : containsSeq l l = true := by
  cases l with
  | nil => rfl
  | cons c t =>
    show (List.isPrefixOf (c :: t) (c :: t) || containsSeq (c :: t) t) = true
    rw [isPrefixOf_self_list]
    simp

lemma strContains_append_left (s t sub : String) (h : strContains t sub = true) :
    strContains (s ++ t) sub = true :=
  containsSeq_append_left sub.data s.data t.data h

lemma strContains_append_right (s t sub : String) (h : strContains s sub = true) :
    strContains (s ++ t) sub = true :=
  containsSeq_append_right sub.data s.data t.data h

lemma strContains_self (s : String) : strContains s s = true :=
  containsSeq_self s.data

lemma strContains_joinWith (sep : String) (l : List String) (a : String)
    (ha : a ∈ l) : strContains (joinWith sep l) a = true := by
  induction l with
  | nil => cases ha
  | cons x rest ih =>
    cases rest with
    | nil =>
      have hax : a = x := by simpa using ha
      subst hax
      simpa [joinWith] using strContains_self a
    | cons y t =>
      rcases List.mem_cons.mp ha with hax | hmem
      · subst hax
        show strContains (a ++ sep ++ joinWith sep (y :: t)) a = true
        exact strContains_append_right _ _ _
          (strContains_append_right _ _ _ (strContains_self a))
      · show strContains (x ++ sep ++ joinWith sep (y :: t)) a = true
        exact strContains_append_left _ _ _ (ih hmem)

lemma mem_insertOrderKeysAux (a : String) (l : List String) :
    ∀ seen, a ∈ l → seen.contains a = false → a ∈ insertOrderKeysAux seen l := by
  induction l with
  | nil => intro seen ha _; cases ha
  | cons k rest ih =>
    intro seen ha hseen
    show a ∈ (if seen.contains k then insertOrderKeysAux seen rest
              else k :: insertOrderKeysAux (k :: seen) rest)
    cases hk : seen.contains k with
    | true =>
      rw [if_pos rfl]
      have hak : a ≠ k := by
        intro he
        subst he
        rw [hseen] at hk
        cases hk
      have harest : a ∈ rest := by
        rcases List.mem_cons.mp ha with h | h
        · exact absurd h hak
        · exact h
      exact ih seen harest hseen
    | false =>
      rw [if_neg (by simp)]
      rcases List.mem_cons.mp ha with h | h
      · exact h ▸ List.mem_cons_self _ _
      · by_cases hak : a = k
        · exact hak ▸ List.mem_cons_self _ _
        · refine List.mem_cons_of_mem _ (ih (k :: seen) h ?_)
          simp only [List.contains_cons, Bool.or_eq_false_iff]
          refine ⟨beq_eq_false_iff_ne.mpr hak, hseen⟩

lemma mem_toolNames (tools : List AgentTool) (tl : AgentTool) (h : tl ∈ tools) :
    tl.name ∈ toolNames tools := by
  show tl.name ∈ insertOrderKeysAux [] (tools.map (fun t => t.name))
  exact mem_insertOrderKeysAux tl.name (tools.map (fun t => t.name)) []
    (List.mem_map_of_mem (fun t => t.name) h) rfl

/-! ### C6: the iteration budget is a hard ceiling -/

/-- C6: for every model stub that on each invocation emits an action on a
known tool and never a final-answer marker, the loop runs for exactly its
iteration budget (`m` model invocations for budget `m`, in particular 5 for
the default budget) and returns the fixed rephrase message. -/
theorem C6_iteration_budget (invoke : String → String) (tools : List AgentTool)
    (hfa : ∀ pad, strContains (invoke pad) "Final Answer:" = false)
    (hac : ∀ pad, strContains (invoke pad) "Action:" = true)
    (hai : ∀ pad, strContains (invoke pad) "Action Input:" = true)
    (hknown : ∀ pad, (toolLookup tools (actionPart (invoke pad))).isSome = true) :
    (∀ m pad, executeAgentFrom invoke tools m pad = (MAX_ITER_MESSAGE, m)) ∧
    execute_agent invoke tools 5 = (MAX_ITER_MESSAGE, 5) := by
  have main : ∀ m pad, executeAgentFrom invoke tools m pad = (MAX_ITER_MESSAGE, m) := by
    intro m
    induction m with
    | zero => intro pad; rfl
    | succ n ih =>
      intro pad
      obtain ⟨tl, htl⟩ := Option.isSome_iff_exists.mp (hknown pad)
      have hstep : agentStep tools pad (invoke pad) =
          StepOut.continued (pad ++ "\n" ++ invoke pad ++ "\nObservation: " ++
            tl.func (actionInputPart (invoke pad)) ++ "\nThought: ") := by
        simp [agentStep, hfa pad, hac pad, hai pad, htl]
      simp only [executeAgentFrom, hstep]
      rw [ih]
  exact ⟨main, main 5 ""⟩

/-- Model stub for the C6 witness: always the same action on a known tool. -/
def c6invoke : String → String := fun _ => "Action: query_database\nAction Input: SELECT 1"

/-- Tool registry for the C6 witness. -/
def c6tools : List AgentTool := [⟨"query_database", "run a query", fun _ => "rows"⟩]

/-- Witness for C6: with the concrete stub and the default budget of 5, the
loop stops after exactly 5 iterations with the rephrase message. -/
theorem C6_witness : execute_agent c6invoke c6tools 5 = (MAX_ITER_MESSAGE, 5) := by
  have h1 : strContains "Action: query_database\nAction Input: SELECT 1" "Final Answer:" = false := by
    decide
  have h2 : strContains "Action: query_database\nAction Input: SELECT 1" "Action:" = true := by
    decide
  have h3 : strContains "Action: query_database\nAction Input: SELECT 1" "Action Input:" = true := by
    decide
  have h4 : (toolLookup c6tools
      (actionPart "Action: query_database\nAction Input: SELECT 1")).isSome = true := by
    decide
  exact (C6_iteration_budget c6invoke c6tools (fun _ => h1) (fun _ => h2)
    (fun _ => h3) (fun _ => h4)).2

/-! ### C8: unparseable model output ends the episode -/

/-- Model stub whose output has no recognizable marker pair. -/
def confusedInvoke : String → String := fun _ => "Thought: I am confused"

/-- C8 counterexample: for the output `Thought: I am confused` (no
final-answer marker, no action marker pair) the loop does terminate on that
iteration, but the answer it returns is the text after the last `Thought:`
marker — not the raw model output. -/
theorem C8_counterexample :
    execute_agent confusedInvoke [] 5 = ("I am confused", 1) ∧
    "I am confused" ≠ "Thought: I am confused" := by
  decide

/-- C8 (amended): when the model output contains no final-answer marker and
not both action markers, the loop returns on that very iteration (one model
invocation), with the text after the last `Thought:` marker of the output,
stripped of surrounding whitespace — the whole output, stripped, when no
`Thought:` marker occurs. -/
theorem C8_unparseable_output_terminates
    (invoke : String → String) (tools : List AgentTool) (pad : String) (n : Nat)
    (h1 : strContains (invoke pad) "Final Answer:" = false)
    (h2 : (strContains (invoke pad) "Action:" &&
           strContains (invoke pad) "Action Input:") = false) :
    executeAgentFrom invoke tools (n + 1) pad = (fallbackAnswer (invoke pad), 1) := by
  have hstep : agentStep tools pad (invoke pad) =
      StepOut.finished (fallbackAnswer (invoke pad)) := by
    simp [agentStep, h1, h2]
  simp [executeAgentFrom, hstep]

/-- Witness for C8 (amended) at the concrete stub. -/
theorem C8_witness :
    executeAgentFrom confusedInvoke [] 1 "" = (fallbackAnswer (confusedInvoke ""), 1) := by
  have h1 : strContains "Thought: I am confused" "Final Answer:" = false := by decide
  have h2 : (strContains "Thought: I am confused" "Action:" &&
      strContains "Thought: I am confused" "Action Input:") = false := by decide
  exact C8_unparseable_output_terminates confusedInvoke [] "" 0 h1 h2

/-! ### C9: unknown tool names do not terminate the episode -/

/-- C9: when the model output carries both action markers, no final-answer
marker, and names a tool outside the registry, the loop records the
`not found` observation (which lists every registered tool's name) on the
scratchpad and proceeds to the next iteration instead of returning. -/
theorem C9_unknown_tool_recovery
    (invoke : String → String) (tools : List AgentTool) (pad : String) (n : Nat)
    (h1 : strContains (invoke pad) "Final Answer:" = false)
    (h2 : strContains (invoke pad) "Action:" = true)
    (h3 : strContains (invoke pad) "Action Input:" = true)
    (h4 : toolLookup tools (actionPart (invoke pad)) = none) :
    executeAgentFrom invoke tools (n + 1) pad =
      ((executeAgentFrom invoke tools n
          (pad ++ "\n" ++ invoke pad ++ "\nObservation: " ++
            unknownToolObservation tools (actionPart (invoke pad)) ++ "\nThought: ")).1,
       (executeAgentFrom invoke tools n
          (pad ++ "\n" ++ invoke pad ++ "\nObservation: " ++
            unknownToolObservation tools (actionPart (invoke pad)) ++ "\nThought: ")).2 + 1) ∧
    strContains (unknownToolObservation tools (actionPart (invoke pad))) "not found" = true ∧
    ∀ tl ∈ tools,
      strContains (unknownToolObservation tools (actionPart (invoke pad))) tl.name = true := by
  refine ⟨?_, ?_, ?_⟩
  · have hstep : agentStep tools pad (invoke pad) =
        StepOut.continued (pad ++ "\n" ++ invoke pad ++ "\nObservation: " ++
          unknownToolObservation tools (actionPart (invoke pad)) ++ "\nThought: ") := by
      simp [agentStep, h1, h2, h3, h4]
    simp [executeAgentFrom, hstep]
  · show strContains (("Error - Tool '" ++ actionPart (invoke pad)) ++
        "' not found. Available tools: " ++
        joinWith ", " (toolNames tools)) "not found" = true
    exact strContains_append_right _ _ _
      (strContains_append_left _ _ _ (by decide))
  · intro tl htl
    show strContains (("Error - Tool '" ++ actionPart (invoke pad)) ++
        "' not found. Available tools: " ++
        joinWith ", " (toolNames tools)) tl.name = true
    exact strContains_append_left _ _ _
      (strContains_joinWith ", " (toolNames tools) tl.name (mem_toolNames tools tl htl))

/-- Model stub for the C9 witness: an action naming a non-existent tool. -/
def c9invoke : String → String := fun _ => "Action: nosuch\nAction Input: q"

/-- Tool registry for the C9 witness. -/
def c9tools : List AgentTool := [⟨"query_database", "run a query", fun _ => "rows"⟩]

/-- Witness for C9 at the concrete stub: the loop proceeds to the next
iteration with the observation appended, the observation says `not found`,
and it lists the registered tool's name. -/
theorem C9_witness :
    executeAgentFrom c9invoke c9tools 2 "" =
      ((executeAgentFrom c9invoke c9tools 1
          ("" ++ "\n" ++ c9invoke "" ++ "\nObservation: " ++
            unknownToolObservation c9tools (actionPart (c9invoke "")) ++ "\nThought: ")).1,
       (executeAgentFrom c9invoke c9tools 1
          ("" ++ "\n" ++ c9invoke "" ++ "\nObservation: " ++
            unknownToolObservation c9tools (actionPart (c9invoke "")) ++ "\nThought: ")).2 + 1) ∧
    strContains (unknownToolObservation c9tools (actionPart (c9invoke ""))) "not found" = true ∧
    strContains (unknownToolObservation c9tools (actionPart (c9invoke ""))) "query_database" = true := by
  have h1 : strContains "Action: nosuch\nAction Input: q" "Final Answer:" = false := by decide
  have h2 : strContains "Action: nosuch\nAction Input: q" "Action:" = true := by decide
  have h3 : strContains "Action: nosuch\nAction Input: q" "Action Input:" = true := by decide
  have h4 : toolLookup c9tools (actionPart "Action: nosuch\nAction Input: q") = none := rfl
  have h := C9_unknown_tool_recovery c9invoke c9tools "" 1 h1 h2 h3 h4
  exact ⟨h.1, h.2.1, h.2.2 ⟨"query_database", "run a query", fun _ => "rows"⟩
    (List.mem_singleton.mpr rfl)⟩

/-! ### C10: every caller shares the `default_user` rate window -/

lemma validate_default_state (parse : String → ParseOutcome) (ex : SQLQueryValidator)
    (query : String) (now : ℤ) :
    (validate parse ex query (some "default_user") now).2 =
      ⟨(allow_request ex.rate_limiter "default_user" now).2⟩ := by
  simp only [validate]
  rw [if_neg (by decide)]
  split <;> rfl

lemma execute_query_state (parse : String → ParseOutcome) (db : String → DBOutcome)
    (ex : SQLQueryValidator) (query : String) (user_id : Option String)
    (max_rows : Nat) (now : ℤ) :
    (execute_query parse db ex query user_id max_rows now).2.1 =
      (validate parse ex query user_id now).2 := by
  simp only [execute_query]
  split
  · split <;> rfl
  · rfl

lemma run_query_state (parse : String → ParseOutcome) (db : String → DBOutcome)
    (ex : SQLQueryValidator) (query : String) (now : ℤ) :
    (run_query parse db ex query now).2 =
      ⟨(allow_request ex.rate_limiter "default_user" now).2⟩ := by
  have hrq : (run_query parse db ex query now).2 =
      (execute_query parse db ex query (some "default_user") 100 now).2.1 := by
    simp only [run_query]
    split
    · split
      · rfl
      · rfl
    · rfl
  rw [hrq, execute_query_state, validate_default_state]

/-- C10: `run_query` always hands the fixed identity `default_user` to the
executor, so (i) no other identity's window is ever touched by it, and
(ii) whatever the queries, the parser and the database behave like, after
any ten `run_query` calls on a fresh executor, an eleventh call at the same
clock value fails with the rate-limit message — all callers share the
single `default_user` window. -/
theorem C10_fixed_identity :
    (∀ (parse : String → ParseOutcome) (db : String → DBOutcome)
       (ex : SQLQueryValidator) (query : String) (now : ℤ) (u : String),
       u ≠ "default_user" →
       (run_query parse db ex query now).2.rate_limiter.requests u =
         ex.rate_limiter.requests u) ∧
    (∀ (parse : String → ParseOutcome) (db : String → DBOutcome)
       (qs : List String) (now : ℤ) (q : String),
       qs.length = 10 →
       (run_query parse db (runQuerySeq parse db SQLQueryValidator.new qs now) q now).1 =
         "❌ Query failed: Rate limit exceeded. Please wait before making more queries.") := by
  constructor
  · intro parse db ex query now u hu
    rw [run_query_state]
    simp only [allow_request]
    split <;> simp [hu]
  · intro parse db qs now q hqs
    have hwin : ∀ (qs : List String) (st : SQLQueryValidator) (j : Nat),
        st.rate_limiter.max_requests = 10 → st.rate_limiter.time_window = 60 →
        st.rate_limiter.requests "default_user" = List.replicate j now →
        j + qs.length ≤ 10 →
        (runQuerySeq parse db st qs now).rate_limiter.max_requests = 10 ∧
        (runQuerySeq parse db st qs now).rate_limiter.time_window = 60 ∧
        (runQuerySeq parse db st qs now).rate_limiter.requests "default_user" =
          List.replicate (j + qs.length) now := by
      intro qs
      induction qs with
      | nil => intro st j h1 h2 h3 h4; exact ⟨h1, h2, by simpa using h3⟩
      | cons q' rest ih =>
        intro st j h1 h2 h3 h4
        have h4' : j + (rest.length + 1) ≤ 10 := by simpa using h4
        have hfilter : (List.replicate j now).filter
            (fun t => now - t < st.rate_limiter.time_window) = List.replicate j now := by
          refine List.filter_eq_self.mpr ?_
          intro a ha
          have he : a = now := List.eq_of_mem_replicate ha
          subst he
          rw [h2]
          simp
        have hallow : allow_request st.rate_limiter "default_user" now =
            (true, { st.rate_limiter with requests := fun u =>
              if u = "default_user" then List.replicate j now ++ [now]
              else st.rate_limiter.requests u }) := by
          simp only [allow_request]
          rw [h3, hfilter]
          rw [if_neg (by rw [h1, List.length_replicate]; omega)]
        have hstep : (run_query parse db st q' now).2.rate_limiter =
            { st.rate_limiter with requests := fun u =>
              if u = "default_user" then List.replicate j now ++ [now]
              else st.rate_limiter.requests u } := by
          rw [run_query_state, hallow]
        have hun : runQuerySeq parse db st (q' :: rest) now =
            runQuerySeq parse db (run_query parse db st q' now).2 rest now := rfl
        rw [hun]
        have hrec := ih (run_query parse db st q' now).2 (j + 1)
          (by rw [hstep]; exact h1) (by rw [hstep]; exact h2)
          (by rw [hstep]; simp [List.replicate_succ']) (by omega)
        refine ⟨hrec.1, hrec.2.1, ?_⟩
        rw [hrec.2.2]
        congr 1
        simp
        omega
    have h10 := hwin qs SQLQueryValidator.new 0 rfl rfl rfl (by omega)
    set st10 := runQuerySeq parse db SQLQueryValidator.new qs now with hst10
    have hfull : st10.rate_limiter.requests "default_user" = List.replicate 10 now := by
      rw [h10.2.2, hqs]
    have hfilter10 : (List.replicate 10 now).filter
        (fun t => now - t < st10.rate_limiter.time_window) = List.replicate 10 now := by
      refine List.filter_eq_self.mpr ?_
      intro a ha
      have he : a = now := List.eq_of_mem_replicate ha
      subst he
      rw [h10.2.1]
      simp
    have hdeny : (allow_request st10.rate_limiter "default_user" now).1 = false := by
      simp only [allow_request]
      rw [hfull, hfilter10]
      rw [if_pos (by rw [h10.1, List.length_replicate])]
    have hver : (validate parse st10 q (some "default_user") now).1 =
        ⟨false, some "Rate limit exceeded. Please wait before making more queries."⟩ := by
      simp only [validate]
      rw [if_neg (by decide)]
      rw [if_neg (by simp [hdeny])]
    have hexec : (execute_query parse db st10 q (some "default_user") 100 now).1 =
        { success := false, data := none, row_count := none,
          error := some "Rate limit exceeded. Please wait before making more queries." } := by
      simp only [execute_query]
      rw [hver]
      rfl
    have hrq1 : (run_query parse db st10 q now).1 =
        "❌ Query failed: " ++
          ((execute_query parse db st10 q (some "default_user") 100 now).1.error).getD "" := by
      simp only [run_query]
      rw [hexec]
      rfl
    rw [hrq1, hexec]
    rfl

/-- Witness for C10 at concrete inputs: ten `run_query` calls on one side
exhaust the shared window for the eleventh; and `run_query` leaves the
window of the unrelated identity `alice` untouched. -/
theorem C10_witness :
    (run_query sqlparseModel (fun _ => DBOutcome.ok [] [])
        (runQuerySeq sqlparseModel (fun _ => DBOutcome.ok [] []) SQLQueryValidator.new
          (List.replicate 10 "SELECT 1") 0) "SELECT 1" 0).1 =
      "❌ Query failed: Rate limit exceeded. Please wait before making more queries." ∧
    (run_query sqlparseModel (fun _ => DBOutcome.ok [] []) SQLQueryValidator.new
        "SELECT 1" 0).2.rate_limiter.requests "alice" =
      SQLQueryValidator.new.rate_limiter.requests "alice" :=
  ⟨C10_fixed_identity.2 sqlparseModel (fun _ => DBOutcome.ok [] [])
      (List.replicate 10 "SELECT 1") 0 "SELECT 1" (by simp),
   C10_fixed_identity.1 sqlparseModel (fun _ => DBOutcome.ok [] [])
      SQLQueryValidator.new "SELECT 1" 0 "alice" (by decide)⟩

/-! ### C4: the sliding-window rate limiter -/

/-- The timestamps of the admitted calls for identity `u` when the trace
`tr` of calls `(identity, clock value)` is fed through the limiter starting
from state `rl`. -/
def admittedTimes (rl : RateLimiter) (u : String) : List (String × ℤ) → List ℤ
  | [] => []
  | e :: rest =>
    (if (allow_request rl e.1 e.2).1 = true ∧ e.1 = u then [e.2] else []) ++
      admittedTimes (allow_request rl e.1 e.2).2 u rest

/-- Membership of a clock value in the half-open window `(t, t + W]`. -/
def inWindow (t W τ : ℤ) : Bool := decide (t < τ) && decide (τ ≤ t + W)

lemma allow_request_fields (rl : RateLimiter) (uid : String) (now : ℤ) :
    ((allow_request rl uid now).2).max_requests = rl.max_requests ∧
    ((allow_request rl uid now).2).time_window = rl.time_window := by
  simp only [allow_request]
  split <;> exact ⟨rfl, rfl⟩

lemma allow_request_requests_other (rl : RateLimiter) (uid : String) (now : ℤ)
    (v : String) (h : v ≠ uid) :
    ((allow_request rl uid now).2).requests v = rl.requests v := by
  simp only [allow_request]
  split <;> simp [h]

lemma allow_request_requests_self (rl : RateLimiter) (uid : String) (now : ℤ) :
    ((allow_request rl uid now).2).requests uid =
      (rl.requests uid).filter (fun τ => now - τ < rl.time_window) ++
        (if (allow_request rl uid now).1 then [now] else []) := by
  simp only [allow_request]
  split <;> simp

lemma allow_request_decision (rl : RateLimiter) (uid : String) (now : ℤ) :
    (allow_request rl uid now).1 =
      decide (((rl.requests uid).filter (fun τ => now - τ < rl.time_window)).length <
        rl.max_requests) := by
  simp only [allow_request]
  split
  next h =>
    have hn : ¬ ((rl.requests uid).filter
        (fun τ => now - τ < rl.time_window)).length < rl.max_requests := by omega
    simp [hn]
  next h =>
    have hp : ((rl.requests uid).filter
        (fun τ => now - τ < rl.time_window)).length < rl.max_requests := by omega
    simp [hp]

lemma admittedTimes_mem (u : String) :
    ∀ (tr : List (String × ℤ)) (st : RateLimiter) (τ : ℤ),
      τ ∈ admittedTimes st u tr → τ ∈ tr.map (fun e => e.2) := by
  intro tr
  induction tr with
  | nil => intro st τ h; simp [admittedTimes] at h
  | cons e rest ih =>
    intro st τ h
    simp only [admittedTimes, List.mem_append] at h
    rcases h with h | h
    · by_cases hc : (allow_request st e.1 e.2).1 = true ∧ e.1 = u
      · rw [if_pos hc] at h
        simp only [List.mem_singleton] at h
        subst h
        simp
      · rw [if_neg hc] at h
        simp at h
    · exact List.mem_cons_of_mem _ (ih (allow_request st e.1 e.2).2 τ h)

lemma rate_window_aux (u : String) (t W : ℤ) (N : Nat) :
    ∀ (tr : List (String × ℤ)) (st : RateLimiter),
      st.max_requests = N → st.time_window = W →
      List.Pairwise (fun a b => a.2 ≤ b.2) tr →
      ((st.requests u).filter (fun τ => decide (t < τ))).length ≤ N →
      ((admittedTimes st u tr).filter (fun τ => inWindow t W τ)).length +
        ((st.requests u).filter (fun τ => decide (t < τ))).length ≤ N := by
  intro tr
  induction tr with
  | nil =>
    intro st hN hWt _ hreq
    simpa [admittedTimes] using hreq
  | cons e rest ih =>
    intro st hN hWt hpw hreq
    obtain ⟨v, now⟩ := e
    have hhead : ∀ b ∈ rest, now ≤ b.2 := (List.pairwise_cons.mp hpw).1
    have hpw' : List.Pairwise (fun a b => a.2 ≤ b.2) rest := (List.pairwise_cons.mp hpw).2
    have hfields := allow_request_fields st v now
    have hN' : ((allow_request st v now).2).max_requests = N := by rw [hfields.1, hN]
    have hWt' : ((allow_request st v now).2).time_window = W := by rw [hfields.2, hWt]
    by_cases hfar : t + W < now
    · -- the whole trace lies beyond the window (t, t + W]
      have hnil : (admittedTimes st u ((v, now) :: rest)).filter
          (fun τ => inWindow t W τ) = [] := by
        refine List.filter_eq_nil_iff.mpr ?_
        intro τ hτ
        have hmem := admittedTimes_mem u ((v, now) :: rest) st τ hτ
        have hge : now ≤ τ := by
          simp only [List.map_cons, List.mem_cons] at hmem
          rcases hmem with h | h
          · omega
          · obtain ⟨b, hb, hbe⟩ := List.mem_map.mp h
            rw [← hbe]
            exact hhead b hb
        simp only [inWindow, Bool.and_eq_true, decide_eq_true_eq, not_and]
        intro _
        omega
      rw [hnil]
      simpa using hreq
    · push_neg at hfar
      -- now ≤ t + W: eviction at `now` cannot touch entries above t
      have hkey : ∀ l : List ℤ,
          (l.filter (fun τ => decide (now - τ < W))).filter (fun τ => decide (t < τ)) =
            l.filter (fun τ => decide (t < τ)) := by
        intro l
        induction l with
        | nil => rfl
        | cons a l ihl =>
          by_cases h1 : t < a
          · have h2 : now - a < W := by omega
            simp [List.filter_cons, h1, h2, ihl]
          · by_cases h2 : now - a < W <;> simp [List.filter_cons, h1, h2, ihl]
      by_cases hvu : v = u
      · subst hvu
        have hself := allow_request_requests_self st v now
        rw [hWt] at hself
        have hdec := allow_request_decision st v now
        have hexp : admittedTimes st v ((v, now) :: rest) =
            (if (allow_request st v now).1 = true ∧ v = v then [now] else []) ++
              admittedTimes (allow_request st v now).2 v rest := rfl
        cases hd : (allow_request st v now).1 with
        | false =>
          -- denied: nothing recorded, eviction keeps everything above t
          have hreq' : ((allow_request st v now).2).requests v =
              (st.requests v).filter (fun τ => decide (now - τ < W)) := by
            rw [hself, hd]
            simp
          have habove : (((allow_request st v now).2).requests v).filter
              (fun τ => decide (t < τ)) =
              (st.requests v).filter (fun τ => decide (t < τ)) := by
            rw [hreq', hkey]
          rw [hexp, hd]
          simp only [false_and, if_false, List.nil_append, Bool.false_eq_true]
          have := ih (allow_request st v now).2 hN' hWt' hpw' (by rw [habove]; exact hreq)
          rw [habove] at this
          exact this
        | true =>
          have hlt : ((st.requests v).filter
              (fun τ => decide (now - τ < W))).length < N := by
            rw [hd] at hdec
            have := of_decide_eq_true hdec.symm
            rw [hWt] at this
            omega
          have hreq' : ((allow_request st v now).2).requests v =
              (st.requests v).filter (fun τ => decide (now - τ < W)) ++ [now] := by
            rw [hself, hd]
            simp
          have habove : (((allow_request st v now).2).requests v).filter
              (fun τ => decide (t < τ)) =
              (st.requests v).filter (fun τ => decide (t < τ)) ++
                (if t < now then [now] else []) := by
            rw [hreq', List.filter_append, hkey]
            congr 1
            by_cases htn : t < now <;> simp [htn]
          rw [hexp, hd]
          simp only [true_and, if_true]
          rw [List.filter_append]
          by_cases htn : t < now
          · have hwin : inWindow t W now = true := by
              simp [inWindow, htn]
              omega
            have hlen1 : (([now] : List ℤ).filter (fun τ => inWindow t W τ)).length = 1 := by
              simp [hwin]
            have hflen : ((st.requests v).filter (fun τ => decide (t < τ))).length + 1 ≤ N := by
              have hle : ((st.requests v).filter (fun τ => decide (t < τ))).length ≤
                  ((st.requests v).filter (fun τ => decide (now - τ < W))).length := by
                conv_lhs => rw [← hkey (st.requests v)]
                exact List.length_filter_le _ _
              omega
            have := ih (allow_request st v now).2 hN' hWt' hpw'
              (by rw [habove]; simp [htn]; omega)
            rw [habove] at this
            simp [htn] at this
            rw [List.length_append, hlen1]
            omega
          · have hwin : inWindow t W now = false := by
              simp [inWindow, htn]
            have hlen0 : (([now] : List ℤ).filter (fun τ => inWindow t W τ)).length = 0 := by
              simp [hwin]
            have := ih (allow_request st v now).2 hN' hWt' hpw'
              (by rw [habove]; simp [htn]; exact hreq)
            rw [habove] at this
            simp [htn] at this
            rw [List.length_append, hlen0]
            omega
      · -- a different identity: the window of u is untouched
        have hother : ((allow_request st v now).2).requests u = st.requests u :=
          allow_request_requests_other st v now u (fun he => hvu he.symm)
        have hexp : admittedTimes st u ((v, now) :: rest) =
            (if (allow_request st v now).1 = true ∧ v = u then [now] else []) ++
              admittedTimes (allow_request st v now).2 u rest := rfl
        rw [hexp, if_neg (fun hc => hvu hc.2)]
        simp only [List.nil_append]
        have := ih (allow_request st v now).2 hN' hWt' hpw' (by rw [hother]; exact hreq)
        rw [hother] at this
        exact this

/-- C4: the rate limiter's per-call behaviour and rolling-window bound.
(i) a call evicts the timestamps older than `now - W` from the caller's
window before the check; (ii) no other identity's window is touched;
(iii) the call is admitted exactly when the evicted window holds fewer than
`max_requests` entries, and records `now` exactly when admitted;
(iv) starting from a fresh limiter, for every trace of calls with
nondecreasing clock values, every identity `u` and every half-open window
`(t, t + W]`, at most `N = max_requests` calls of `u` are admitted inside
the window, whatever the other identities do. -/
theorem C4_sliding_window :
    (∀ (rl : RateLimiter) (uid : String) (now : ℤ),
       ((allow_request rl uid now).2).requests uid =
         (rl.requests uid).filter (fun τ => now - τ < rl.time_window) ++
           (if (allow_request rl uid now).1 then [now] else [])) ∧
    (∀ (rl : RateLimiter) (uid : String) (now : ℤ) (v : String), v ≠ uid →
       ((allow_request rl uid now).2).requests v = rl.requests v) ∧
    (∀ (rl : RateLimiter) (uid : String) (now : ℤ),
       (allow_request rl uid now).1 =
         decide (((rl.requests uid).filter (fun τ => now - τ < rl.time_window)).length <
           rl.max_requests)) ∧
    (∀ (N : Nat) (W t : ℤ) (u : String) (tr : List (String × ℤ)),
       List.Pairwise (fun a b => a.2 ≤ b.2) tr →
       ((admittedTimes (RateLimiter.make N W) u tr).filter
           (fun τ => inWindow t W τ)).length ≤ N) := by
  refine ⟨allow_request_requests_self, ?_, allow_request_decision, ?_⟩
  · intro rl uid now v hv
    exact allow_request_requests_other rl uid now v hv
  · intro N W t u tr hpw
    have h := rate_window_aux u t W N tr (RateLimiter.make N W) rfl rfl hpw
      (by simp [RateLimiter.make])
    simpa [RateLimiter.make] using h

/-- Witness for C4 at a concrete trace and window. -/
theorem C4_witness :
    ((admittedTimes (RateLimiter.make 10 60) "a" [("a", 0), ("b", 3), ("a", 50)]).filter
        (fun τ => inWindow (-1) 60 τ)).length ≤ 10 ∧
    ((allow_request (RateLimiter.make 10 60) "a" 0).2).requests "c" =
      (RateLimiter.make 10 60).requests "c" := by
  constructor
  · refine C4_sliding_window.2.2.2 10 60 (-1) "a" [("a", 0), ("b", 3), ("a", 50)] ?_
    refine List.Pairwise.cons ?_ (List.Pairwise.cons ?_ (List.pairwise_singleton _ _))
    · intro b hb
      fin_cases hb <;> decide
    · intro b hb
      fin_cases hb <;> decide
  · exact C4_sliding_window.2.1 (RateLimiter.make 10 60) "a" 0 "c" (by decide)
